import Mathlib

/-!
Verification of the dark-mode extension core (content script, AI learning
engine, backend proxy) against its natural-language specification.

Each definition below is a shallow embedding of one JavaScript function of
the repository; the file name and line numbers of the embedded source are
given in the doc comment of every definition.  Machine numbers are modelled
as `Nat` / `Int` / `Rat` (the scripts only perform exact small-number
arithmetic in the verified claims); the transcendental luminance
computation (`Math.pow` with exponent 2.4) is modelled over `Real` with
`Real.rpow`.
-/

namespace DarkMode

/-! ## Color parsing (content script, `parseColor` and helpers) -/

/-- Result record of `parseColor` (content script lines 330-369): numeric
`r`, `g`, `b` channels and an `alpha` value. -/
structure Color where
  r : ℕ
  g : ℕ
  b : ℕ
  alpha : ℚ
deriving DecidableEq, Repr

/-- Numeric value of a list of decimal digits, as JavaScript `parseInt`
computes it on an all-digit string. -/
def natOfDigits (l : List Char) : ℕ :=
  l.foldl (fun n c => 10 * n + (c.toNat - 48)) 0

/-- JavaScript `parseFloat` applied to a capture of the regex class
`[\d.]+`: leading digits, then an optional dot followed by further digits.
On a capture with no leading digits before the first dot the fraction after
the dot is used (`parseFloat(".5") = 0.5`).  Captures such as `"."` or
`".."` yield `NaN` in JavaScript; the claims under verification never
exercise those, and this model returns `0` there. -/
def fracVal (l : List Char) : ℚ :=
  let ip := l.takeWhile Char.isDigit
  let rest := l.dropWhile Char.isDigit
  let fp := match rest with
    | '.' :: r => r.takeWhile Char.isDigit
    | _ => []
  (natOfDigits ip : ℚ) + (natOfDigits fp : ℚ) / (10 : ℚ) ^ fp.length

/-- Character class `[\d.]` of the alpha capture group. -/
def isFracChar (c : Char) : Bool :=
  c.isDigit || c = '.'

/-- Expect a single literal character at the head of the input. -/
def expectChar (c : Char) : List Char → Option (List Char)
  | x :: rest => if x = c then some rest else none
  | [] => none

/-- Greedy `\d+`: at least one digit; returns the digits and the rest. -/
def takeDigits1 (l : List Char) : Option (List Char × List Char) :=
  let d := l.takeWhile Char.isDigit
  if d = [] then none else some (d, l.dropWhile Char.isDigit)

/-- Match of the regex `rgba?\((\d+),\s*(\d+),\s*(\d+)(?:,\s*([\d.]+))?\)`
(content script line 337) anchored at the head of the input.  `\s` is
modelled by `Char.isWhitespace`.  The three digit captures and the optional
alpha capture are returned. -/
def matchRgbaAt (l : List Char) : Option (ℕ × ℕ × ℕ × Option (List Char)) :=
  match l with
  | 'r' :: 'g' :: 'b' :: rest₀ =>
    let rest₁ := match rest₀ with
      | 'a' :: r => r
      | _ => rest₀
    match rest₁ with
    | '(' :: r₁ => do
        let (d₁, r₂) ← takeDigits1 r₁
        let r₃ ← expectChar ',' r₂
        let (d₂, r₄) ← takeDigits1 (r₃.dropWhile Char.isWhitespace)
        let r₅ ← expectChar ',' r₄
        let (d₃, r₆) ← takeDigits1 (r₅.dropWhile Char.isWhitespace)
        match r₆ with
        | ',' :: r₇ =>
            let r₈ := r₇.dropWhile Char.isWhitespace
            let f := r₈.takeWhile isFracChar
            if f = [] then none
            else match r₈.dropWhile isFracChar with
              | ')' :: _ => some (natOfDigits d₁, natOfDigits d₂, natOfDigits d₃, some f)
              | _ => none
        | ')' :: _ => some (natOfDigits d₁, natOfDigits d₂, natOfDigits d₃, none)
        | _ => none
    | _ => none
  | _ => none

/-- Unanchored (leftmost) search of the `rgba?` regex, as `String.match`
performs it. -/
def rgbaSearch : List Char → Option (ℕ × ℕ × ℕ × Option (List Char))
  | [] => none
  | c :: rest =>
    match matchRgbaAt (c :: rest) with
    | some m => some m
    | none => rgbaSearch rest

/-- Hexadecimal digit test, case-insensitive (`[a-f\d]` with the `i`
flag). -/
def isHexChar (c : Char) : Bool :=
  c.isDigit || ('a' ≤ c && c ≤ 'f') || ('A' ≤ c && c ≤ 'F')

/-- Numeric value of one hexadecimal digit. -/
def hexVal (c : Char) : ℕ :=
  if c.isDigit then c.toNat - 48
  else if 'a' ≤ c && c ≤ 'f' then c.toNat - 87
  else c.toNat - 55

/-- Match of the anchored regex `^#([a-f\d]{3}|[a-f\d]{6})$` with the `i`
flag (content script line 348), followed by the channel extraction of
lines 350-365: three-digit hex doubles each digit, six-digit hex reads the
three pairs. -/
def hexMatch (l : List Char) : Option (ℕ × ℕ × ℕ) :=
  match l with
  | '#' :: h =>
    if h.all isHexChar then
      match h with
      | [a, b, c] => some (17 * hexVal a, 17 * hexVal b, 17 * hexVal c)
      | [a, b, c, d, e, f] =>
          some (16 * hexVal a + hexVal b, 16 * hexVal c + hexVal d, 16 * hexVal e + hexVal f)
      | _ => none
    else none
  | _ => none

/-- Embedding of `parseColor` (content script lines 330-369).  An empty
string models the JavaScript falsy inputs (`null`/`undefined`/`''`); the
literal `transparent` and the falsy inputs yield transparent black, a match
of the `rgba?` regex yields the captured channels (alpha defaulting to 1),
an anchored 3- or 6-digit hex match yields the hex channels at alpha 1, and
every other string yields opaque black. -/
def parseColor (s : String) : Color :=
  if s = "" ∨ s = "transparent" then ⟨0, 0, 0, 0⟩
  else
    match rgbaSearch s.data with
    | some (r, g, b, a?) =>
        ⟨r, g, b, match a? with
          | some f => fracVal f
          | none => 1⟩
    | none =>
        match hexMatch s.data with
        | some (r, g, b) => ⟨r, g, b, 1⟩
        | none => ⟨0, 0, 0, 1⟩

/-- Embedding of `isLightColor` (content script lines 372-376): fully
transparent colors are not light; otherwise the perceived brightness
`(299 r + 587 g + 114 b)/1000` must exceed 128. -/
def isLightColor (c : Color) : Bool :=
  if c.alpha = 0 then false
  else decide ((128 : ℚ) < (299 * c.r + 587 * c.g + 114 * c.b : ℚ) / 1000)

/-- Embedding of `isDarkColor` (content script lines 379-383). -/
def isDarkColor (c : Color) : Bool :=
  if c.alpha = 0 then false
  else decide ((299 * c.r + 587 * c.g + 114 * c.b : ℚ) / 1000 < 128)

/-! ## Relative luminance and contrast (content script) -/

/-- Shared per-channel linearization used by `getLuminance` (content script
lines 400-402) and `getColorLuminance` (lines 780-783): a channel value
`x = c/255` is divided by 12.92 when `x ≤ 0.03928`, and otherwise raised by
`((x + 0.055)/1.055) ^ 2.4` (JavaScript `Math.pow`, modelled by
`Real.rpow`). -/
noncomputable def linChannel (x : ℝ) : ℝ :=
  if x ≤ 0.03928 then x / 12.92 else ((x + 0.055) / 1.055) ^ (2.4 : ℝ)

/-- Embedding of `getLuminance` (content script lines 395-405): relative
luminance `0.2126 R + 0.7152 G + 0.0722 B` of the linearized channels. -/
noncomputable def getLuminance (c : Color) : ℝ :=
  0.2126 * linChannel ((c.r : ℝ) / 255) + 0.7152 * linChannel ((c.g : ℝ) / 255)
    + 0.0722 * linChannel ((c.b : ℝ) / 255)

/-- Embedding of `calculateContrast` (content script lines 386-392):
`(max L₁ L₂ + 0.05) / (min L₁ L₂ + 0.05)`. -/
noncomputable def calculateContrast (c₁ c₂ : Color) : ℝ :=
  (max (getLuminance c₁) (getLuminance c₂) + 0.05)
    / (min (getLuminance c₁) (getLuminance c₂) + 0.05)

/-- Maximal runs of decimal digits of a string, in order: the matches of
the global regex `/\d+/g` used by `getColorLuminance`. -/
def digitRunsAux : List Char → List Char → List (List Char)
  | [], acc => if acc = [] then [] else [acc.reverse]
  | c :: rest, acc =>
    if c.isDigit then digitRunsAux rest (c :: acc)
    else if acc = [] then digitRunsAux rest []
    else acc.reverse :: digitRunsAux rest []

/-- Digit runs of a string, leftmost first. -/
def digitRuns (s : String) : List (List Char) :=
  digitRunsAux s.data []

/-- JavaScript `parseInt(h, 16)` on a string slice: value of the leading
run of hexadecimal digits, `none` (for `NaN`) when the slice starts with no
hexadecimal digit (in particular when it is empty). -/
def parseIntHex (l : List Char) : Option ℕ :=
  let d := l.takeWhile isHexChar
  if d = [] then none else some (d.foldl (fun n c => 16 * n + hexVal c) 0)

/-- Leading-substring test, as JavaScript `String.startsWith`. -/
def strStartsWith (s pre : String) : Bool :=
  pre.data.isPrefixOf s.data

/-- Relative luminance of three 0-255 channels, as computed by the channel
mapping of `getColorLuminance` (content script lines 779-785). -/
noncomputable def lumRGB (r g b : ℕ) : ℝ :=
  0.2126 * linChannel ((r : ℝ) / 255) + 0.7152 * linChannel ((g : ℝ) / 255)
    + 0.0722 * linChannel ((b : ℝ) / 255)

/-- Embedding of `getColorLuminance` (content script lines 756-786).
Falsy or `transparent` input yields 0; an input starting with `rgb` is
parsed through the digit runs of `/\d+/g` (fewer than three runs yield the
default 0.5); an input starting with `#` reads the three hex pairs of
`slice(1)` with `parseInt(·, 16)` (`none` models the `NaN` luminance that
JavaScript produces when a pair has no leading hex digit); every other
input yields the default 0.5. -/
noncomputable def getColorLuminance (s : String) : Option ℝ :=
  if s = "" ∨ s = "transparent" then some 0
  else if strStartsWith s "rgb" then
    match digitRuns s with
    | r :: g :: b :: _ => some (lumRGB (natOfDigits r) (natOfDigits g) (natOfDigits b))
    | _ => some 0.5
  else if strStartsWith s "#" then
    let h := s.data.drop 1
    match parseIntHex (h.take 2), parseIntHex ((h.drop 2).take 2), parseIntHex ((h.drop 4).take 2) with
    | some r, some g, some b => some (lumRGB r g b)
    | _, _, _ => none
  else some 0.5

/-- Embedding of `haspoorContrast` (content script lines 741-754): the
contrast ratio of the two luminances is below 3.  A `none` (`NaN`)
luminance makes every comparison false in JavaScript, so the predicate
requires both luminances to be numeric. -/
def haspoorContrast (bg tx : String) : Prop :=
  ∃ lb lt : ℝ, getColorLuminance bg = some lb ∧ getColorLuminance tx = some lt ∧
    (max lb lt + 0.05) / (min lb lt + 0.05) < 3

/-- Substring test, as JavaScript `String.includes`. -/
def strContains (s sub : String) : Bool :=
  let rec go : List Char → Bool
    | [] => sub.data.isPrefixOf []
    | c :: rest => sub.data.isPrefixOf (c :: rest) || go rest
  go s.data

/-- Tags pushed for a single element by the loop body of
`analyzePageForDarkMode` (content script lines 670-699), as a function of
the element's computed background and foreground color strings:
`transparent_background` for the three transparency shapes tested on line
676-677, and `poor_contrast` when `haspoorContrast` holds. -/
def pageAnalysisTags (bg tx : String) : Set String := fun t =>
  (t = "transparent_background" ∧
    (bg = "transparent" ∨ bg = "rgba(0, 0, 0, 0)" ∨
      (strContains bg "rgba" = true ∧ strContains bg "0)" = true)))
  ∨ (t = "poor_contrast" ∧ haspoorContrast bg tx)

/-! ## Defect classifier (content script, `detectDarkModeIssues`) -/

/-- JavaScript `parseFloat` on a general string, restricted to the shapes a
computed `opacity` takes: optional leading whitespace and sign, then
digits with an optional fractional part.  `none` models `NaN` (no leading
numeric prefix); exponent notation is not modelled, no verified claim
exercises it. -/
def jsParseFloat (s : String) : Option ℚ :=
  let l := s.data.dropWhile Char.isWhitespace
  let (sign, l) : ℚ × List Char := match l with
    | '-' :: r => (-1, r)
    | '+' :: r => (1, r)
    | _ => (1, l)
  let ip := l.takeWhile Char.isDigit
  let rest := l.dropWhile Char.isDigit
  let fp := match rest with
    | '.' :: r => r.takeWhile Char.isDigit
    | _ => []
  if ip = [] ∧ fp = [] then none
  else some (sign * ((natOfDigits ip : ℚ) + (natOfDigits fp : ℚ) / (10 : ℚ) ^ fp.length))

/-- Style Snapshot of one node: the computed-style strings read by
`detectDarkModeIssues` (content script lines 286-328), together with the
element's visibility and text content, which the comprehensive data
collection of lines 168-193 also records. -/
structure Snapshot where
  backgroundColor : String
  color : String
  opacity : String
  borderColor : String
  borderStyle : String
  visibility : String
  textContent : String

/-- Embedding of `detectDarkModeIssues` (content script lines 286-328) as
the set of issue tags pushed for a snapshot: `light_background_dark_text`,
`transparent_background_dark_text`, `very_light_background`,
`low_contrast` (only when the text color is not pure black),
`low_opacity`, and `light_border`.  The function reads only the color,
opacity and border fields of the snapshot. -/
def detectDarkModeIssues (st : Snapshot) : Set String :=
  let bg := parseColor st.backgroundColor
  let tx := parseColor st.color
  let bo := parseColor st.borderColor
  fun t =>
    (t = "light_background_dark_text" ∧ isLightColor bg = true ∧ isDarkColor tx = true)
  ∨ (t = "transparent_background_dark_text" ∧ bg.alpha = 0 ∧ isDarkColor tx = true)
  ∨ (t = "very_light_background" ∧ 240 < bg.r ∧ 240 < bg.g ∧ 240 < bg.b)
  ∨ (t = "low_contrast" ∧ (tx.r ≠ 0 ∨ tx.g ≠ 0 ∨ tx.b ≠ 0) ∧ calculateContrast bg tx < 3)
  ∨ (t = "low_opacity" ∧ st.opacity ≠ "1" ∧
      (∃ q, jsParseFloat st.opacity = some q ∧ q < 1 / 2))
  ∨ (t = "light_border" ∧ isLightColor bo = true ∧ st.borderStyle ≠ "none")

/-! ## Real-time classifier (second content script, embedded in
`src/RELEASE_CHECKLIST.md` after the document separator at line 145) -/

/-- JavaScript `String.trim`: leading and trailing whitespace removed. -/
def strTrim (s : String) : String :=
  ⟨((s.data.dropWhile Char.isWhitespace).reverse.dropWhile Char.isWhitespace).reverse⟩

/-- Embedding of `isTransparent` (second content script lines 266-269). -/
def isTransparent (bg : String) : Bool :=
  bg = "rgba(0, 0, 0, 0)" || bg = "transparent"

/-- Per-element data read by the loop body of `analyzeDarkModeIssues`
(second content script lines 553-608) and by `isLikelyMenu`: the computed
style strings, the element's attributes and class list, its offset and
bounding-box geometry, and the viewport size. -/
structure RtSnapshot where
  position : String
  zIndex : String
  backgroundColor : String
  color : String
  visibility : String
  textContent : String
  role : Option String
  ariaModal : Option String
  classes : List String
  hasOffsetParent : Bool
  offsetWidth : ℚ
  offsetHeight : ℚ
  rectWidth : ℚ
  rectHeight : ℚ
  vw : ℚ
  vh : ℚ
deriving DecidableEq, Repr

/-- Embedding of `isLikelyMenu` (second content script lines 271-295):
position fixed or absolute, parsed z-index above 100 (`parseFloat` of a
non-numeric z-index is `NaN`, failing the comparison), fully transparent
background, a non-null offset parent, offset box larger than 40px on both
axes and bounding box below 90% of the viewport on both axes, a
menu/navigation/dialog role, modal marker or menu-like class, and none of
the backdrop/overlay/main classes. -/
def isLikelyMenu (st : RtSnapshot) : Bool :=
  (st.position = "fixed" || st.position = "absolute") &&
  (match jsParseFloat st.zIndex with
    | some q => decide ((100 : ℚ) < q)
    | none => false) &&
  isTransparent st.backgroundColor &&
  st.hasOffsetParent &&
  decide ((40 : ℚ) < st.offsetHeight) && decide ((40 : ℚ) < st.offsetWidth) &&
  decide (st.rectWidth < st.vw * 0.9) && decide (st.rectHeight < st.vh * 0.9) &&
  (st.role = some "menu" || st.role = some "navigation" || st.role = some "dialog" ||
    st.ariaModal = some "true" ||
    st.classes.contains "menu" || st.classes.contains "nav" ||
    st.classes.contains "sidebar" || st.classes.contains "drawer") &&
  !(st.classes.contains "backdrop") && !(st.classes.contains "overlay") &&
  !(st.classes.contains "main")

/-- Clamped perceived lightness of three 0-255 channels (second content
script line 722): `max(0, min(1, (0.2126 r + 0.7152 g + 0.0722 b)/255))`. -/
def lightnessRGB (r g b : ℕ) : ℚ :=
  max 0 (min 1 ((0.2126 * r + 0.7152 * g + 0.0722 * b : ℚ) / 255))

/-- Embedding of `colorToLightness` (second content script lines 700-723):
falsy input yields 0; an `rgb`-prefixed string is read through the digit
runs of `/\d+/g` (fewer than three runs keep the 0 defaults); a `#` string
of exactly 6 hex digits reads the three pairs with `parseInt(·, 16)`
(`none` models the `NaN` that JavaScript propagates when a pair has no
leading hex digit); every other string keeps the 0 defaults. -/
def colorToLightness (color : String) : Option ℚ :=
  if color = "" then some 0
  else if strStartsWith color "rgb" then
    match digitRuns color with
    | r :: g :: b :: _ => some (lightnessRGB (natOfDigits r) (natOfDigits g) (natOfDigits b))
    | _ => some (lightnessRGB 0 0 0)
  else if strStartsWith color "#" then
    let h := color.data.drop 1
    if h.length = 6 then
      match parseIntHex (h.take 2), parseIntHex ((h.drop 2).take 2),
          parseIntHex ((h.drop 4).take 2) with
      | some r, some g, some b => some (lightnessRGB r g b)
      | _, _, _ => none
    else some (lightnessRGB 0 0 0)
  else some (lightnessRGB 0 0 0)

/-- Contrast test of the real-time classifier (second content script lines
574-580): the absolute lightness difference is below 0.3; a `NaN`
lightness fails the comparison. -/
def rtPoorContrast (bg tx : String) : Bool :=
  match colorToLightness bg, colorToLightness tx with
  | some lb, some lt => decide (|lb - lt| < 3 / 10)
  | _, _ => false

/-- Embedding of the per-element `problems` computation of
`analyzeDarkModeIssues` (second content script lines 561-591), in push
order: `transparent_menu_background` for a likely menu with transparent
background, `poor_contrast` for a truthy non-transparent background and
truthy text color whose lightness difference is below 0.3,
`white_background` for a truthy background containing `255, 255, 255` or
equal to `white` or `#ffffff`, and `hidden_content` when visibility is
`hidden` and the trimmed text content is truthy.  (The surrounding loop
skips elements whose bounding box has zero width or height before this
computation runs.) -/
def rtProblems (st : RtSnapshot) : List String :=
  (if isLikelyMenu st = true then
    (if isTransparent st.backgroundColor = true then ["transparent_menu_background"] else [])
   else [])
  ++ (if st.backgroundColor ≠ "" ∧ st.backgroundColor ≠ "rgba(0, 0, 0, 0)" ∧ st.color ≠ "" ∧
        rtPoorContrast st.backgroundColor st.color = true
      then ["poor_contrast"] else [])
  ++ (if st.backgroundColor ≠ "" ∧
        (strContains st.backgroundColor "255, 255, 255" = true ∨
          st.backgroundColor = "white" ∨ st.backgroundColor = "#ffffff")
      then ["white_background"] else [])
  ++ (if st.visibility = "hidden" ∧ st.textContent ≠ "" ∧ strTrim st.textContent ≠ ""
      then ["hidden_content"] else [])

/-! ## Patch application and dark-mode toggling (content script message
handlers) -/

/-- One injected `<style>` element, as created by the
`inject-darkmode-css` handler (content script lines 530-535): the CSS
text, the `data-source` attribute, the serialized `data-element-info`
attribute identifying the node the patch targets, and the
`data-darkmode-patch` timestamp. -/
structure StyleBlock where
  css : String
  source : String
  elementInfo : String
  patchStamp : ℕ
deriving DecidableEq, Repr

/-- The document state touched by the message handlers: the injected
dark-mode style blocks of `document.head`, in insertion order, and whether
`document.documentElement` carries the `universal-dark-mode` class. -/
structure PageState where
  styles : List StyleBlock
  darkClass : Bool
deriving DecidableEq, Repr

/-- Payload of an `inject-darkmode-css` message: `msg.css`, the optional
`msg.source` (defaulted to `gemini` on line 533), and the serialized
element info. -/
structure InjectMsg where
  css : String
  source : Option String
  elementInfo : String
deriving DecidableEq, Repr

/-- Embedding of the `inject-darkmode-css` handler (content script lines
527-594): a fresh `<style>` element is created, filled with the message's
CSS and attributes, and appended to `document.head`.  No existing style
block is inspected, replaced or removed. -/
def injectDarkmodeCSS (msg : InjectMsg) (now : ℕ) (s : PageState) : PageState :=
  { s with styles := s.styles ++ [⟨msg.css, msg.source.getD "gemini", msg.elementInfo, now⟩] }

/-- Embedding of the `TOGGLE_DARK_MODE` handler (content script lines
412-420): `enabled` adds the `universal-dark-mode` class on the document
element, `¬enabled` removes it.  Nothing else in the handler touches the
document. -/
def toggleDarkMode (enabled : Bool) (s : PageState) : PageState :=
  { s with darkClass := enabled }

/-- Number of active style blocks whose `data-element-info` attribute
identifies the given node. -/
def activeBlocksFor (s : PageState) (info : String) : ℕ :=
  (s.styles.filter (fun b => b.elementInfo = info)).length

/-! ## Storage caps of the learning logs -/

/-- Embedding of the storage step of `AILearningEngine.trackFixSuccess`
(`ai-learning.js` lines 254-262): the new success record is pushed onto the
stored list, then `slice(-500)` keeps only the last 500 entries when the
list exceeds 500. -/
def engineStoreStep {α : Type} (prev : List α) (e : α) : List α :=
  let l := prev ++ [e]
  if 500 < l.length then l.drop (l.length - 500) else l

/-- Embedding of the storage step of the popup's `trackFixSuccess`
(popup script lines 1309-1317): the new fix record is pushed, then
`splice(0, length - 100)` drops the leading entries when the list exceeds
100 records. -/
def popupStoreStep {α : Type} (prev : List α) (e : α) : List α :=
  let l := prev ++ [e]
  if 100 < l.length then l.drop (l.length - 100) else l

/-! ## AI learning engine (`ai-learning.js`) -/

/-- One entry of the `darkmode_feedback` store, with the fields the
learning engine reads: element tag and classes, the user's free-text
description, the page URL, whether the fix was recorded as successful, and
the CSS that was applied (absent or empty when none was recorded). -/
structure Feedback where
  tag : String
  classes : List String
  description : String
  url : String
  fixed : Bool
  appliedCSS : Option String
deriving DecidableEq, Repr

/-- Element key `` `${feedback.tag}.${feedback.classes.join('.')}` `` used
by `extractPatterns` and `generatePredictiveCSS`. -/
def elementKey (tag : String) (classes : List String) : String :=
  tag ++ "." ++ String.intercalate "." classes

/-- Lookup in an insertion-ordered association list, modelling property
access on a JavaScript object with string keys. -/
def lookupA {A : Type} (m : List (String × A)) (k : String) : Option A :=
  match m with
  | [] => none
  | (k₀, v) :: rest => if k₀ = k then some v else lookupA rest k

/-- Update of an insertion-ordered association list, modelling the idiom
`if (!obj[k]) obj[k] = init; …mutate obj[k]…`: a missing key is appended
with `f init`, an existing key's value becomes `f v`. -/
def bump {A : Type} (m : List (String × A)) (k : String) (init : A) (f : A → A) :
    List (String × A) :=
  match m with
  | [] => [(k, f init)]
  | (k₀, v) :: rest => if k₀ = k then (k₀, f v) :: rest else (k₀, v) :: bump rest k init f

/-- ASCII lowercase of a string, as `String.toLowerCase` behaves on the
ASCII descriptions the engine categorizes. -/
def strLower (s : String) : String :=
  ⟨s.data.map Char.toLower⟩

/-- Embedding of `categorizeProlem` (`ai-learning.js` lines 81-98): the
lowercased description is tested against substrings in order. -/
def categorizeProlem (f : Feedback) : String :=
  let d := strLower f.description
  if strContains d "transparent" || strContains d "invisible" then "transparent_background"
  else if strContains d "contrast" || strContains d "hard to read" then "poor_contrast"
  else if strContains d "menu" || strContains d "dropdown" then "menu_issues"
  else if strContains d "text" || strContains d "font" then "text_visibility"
  else "general_dark_mode"

/-- Embedding of `extractDomain` (`ai-learning.js` lines 101-107), which
evaluates `new URL(url).hostname` and yields `unknown` when the
constructor throws.  The model covers hierarchical URLs of the shape
`scheme://host[/…]` (the only shape the stored page URLs take): the host
is the run after `://` up to the first `/`, `:`, `?` or `#`, and inputs
with no `://` or an empty host are `unknown`. -/
def extractDomain (url : String) : String :=
  let rec afterScheme : List Char → Option (List Char)
    | ':' :: '/' :: '/' :: rest => some rest
    | _ :: rest => afterScheme rest
    | [] => none
  match afterScheme url.data with
  | none => "unknown"
  | some rest =>
    let host := rest.takeWhile (fun c => c ≠ '/' && c ≠ ':' && c ≠ '?' && c ≠ '#')
    if host = [] then "unknown" else ⟨host⟩

/-- The pattern structure built by `extractPatterns` (`ai-learning.js`
lines 33-78).  `commonProblems` keeps the pushed example entries (the
`count` field of the source always equals the length of `examples`);
`successfulFixes` keeps the success count and the pushed CSS fixes
(distinct, since a success with falsy `appliedCSS` increments the count
without a push); `websitePatterns` keeps the issue entries per domain (the
source initializes a `fixes` array per domain but never writes to it);
`confidence` is derived from `successfulFixes` after the loop. -/
structure Patterns where
  commonProblems : List (String × List Feedback)
  successfulFixes : List (String × (ℕ × List String))
  websitePatterns : List (String × List Feedback)
  confidence : List (String × ℚ)
deriving Repr

/-- Loop body of the `feedbackData.forEach` of `extractPatterns`
(`ai-learning.js` lines 42-69). -/
def extractStep (p : Patterns) (f : Feedback) : Patterns :=
  let p := { p with
    commonProblems := bump p.commonProblems (categorizeProlem f) [] (fun l => l ++ [f]) }
  let addFix : ℕ × List String → ℕ × List String := fun cf =>
    (cf.1 + 1,
     match f.appliedCSS with
     | some css => if css = "" then cf.2 else cf.2 ++ [css]
     | none => cf.2)
  let p :=
    if f.fixed then
      { p with
        successfulFixes := bump p.successfulFixes (elementKey f.tag f.classes) (0, []) addFix }
    else p
  { p with websitePatterns := bump p.websitePatterns (extractDomain f.url) [] (fun l => l ++ [f]) }

/-- Embedding of `extractPatterns` (`ai-learning.js` lines 33-78): the
entry loop, followed by the confidence computation of lines 72-75, which
assigns `min(count / 10, 1.0)` to every element key holding at least one
successful fix. -/
def extractPatterns (fb : List Feedback) : Patterns :=
  let base := fb.foldl extractStep ⟨[], [], [], []⟩
  { base with confidence := base.successfulFixes.map (fun p => (p.1, min ((p.2.1 : ℚ) / 10) 1)) }

/-- Embedding of `extractCSSRules` (`ai-learning.js` lines 167-169):
split on `}`, re-append `}` to each trimmed piece, keep pieces longer than
one character. -/
def extractCSSRules (css : String) : List String :=
  ((css.splitOn "\x7d").map (fun r => r.trim ++ "\x7d")).filter (fun r => 1 < r.length)

/-- Stable insertion of an entry into a count-sorted list: the entry goes
after every already-placed entry whose count is at least as large.  Used
to model the stable JavaScript `sort((a, b) => b[1] - a[1])` on
`Object.entries` of a frequency map. -/
def insertByCountDesc {A : Type} (x : A × ℕ) : List (A × ℕ) → List (A × ℕ)
  | [] => [x]
  | y :: rest => if y.2 < x.2 then x :: y :: rest else y :: insertByCountDesc x rest

/-- Stable sort by count descending, modelling the JavaScript
`entries.sort((a, b) => b[1] - a[1])`. -/
def sortByCountDesc {A : Type} (l : List (A × ℕ)) : List (A × ℕ) :=
  l.foldl (fun acc x => insertByCountDesc x acc) []

/-- Embedding of `findMostSuccessfulCSS` (`ai-learning.js` lines 145-164):
`null` on an empty fix list; otherwise the rules of all fixes are counted
(insertion-ordered frequency map), the rules seen at least twice are
sorted by frequency descending (stable, as the JavaScript sort is), and
joined with newlines. -/
def findMostSuccessfulCSS (cssFixes : List String) : Option String :=
  if cssFixes = [] then none
  else
    let freq := cssFixes.foldl
      (fun m css => (extractCSSRules css).foldl (fun m rule => bump m rule 0 (· + 1)) m) []
    let popular := (sortByCountDesc (freq.filter (fun p => 2 ≤ p.2))).map (fun p => p.1)
    some (String.intercalate "\n" popular)

/-- Embedding of `findCommonProblemsInDomain` (`ai-learning.js` lines
190-201): problem categories of the domain's issues, counted, filtered to
those occurring at least twice, sorted by count descending. -/
def findCommonProblemsInDomain (issues : List Feedback) : List String :=
  let counts := issues.foldl (fun m i => bump m (categorizeProlem i) 0 (· + 1)) []
  ((sortByCountDesc (counts.filter (fun p => 2 ≤ p.2))).map (fun p => p.1))

/-- CSS template pushed for `transparent_background` by
`generateDomainSpecificCSS` (whitespace of the source template literal
normalized). -/
def cssTransparentFix : String :=
  ".menu, .dropdown, [class*=\"menu\"], [class*=\"dropdown\"] \x7b background-color: #222 !important; border: 1px solid #444 !important; \x7d"

/-- CSS template pushed for `poor_contrast` by
`generateDomainSpecificCSS` (whitespace normalized). -/
def cssContrastFix : String :=
  "* \x7b color: #e0e0e0 !important; \x7d a, .link \x7b color: #58a6ff !important; \x7d"

/-- CSS template pushed for `menu_issues` by `generateDomainSpecificCSS`
(whitespace normalized). -/
def cssMenuFix : String :=
  "nav, .navigation, .nav-menu \x7b background-color: #1a1a1a !important; color: #ffffff !important; \x7d"

/-- Embedding of `generateDomainSpecificCSS` (`ai-learning.js` lines
204-239): one template per recognized common problem, joined with
newlines. -/
def generateDomainSpecificCSS (problems : List String) : String :=
  String.intercalate "\n" (problems.foldl
    (fun acc p =>
      if p = "transparent_background" then acc ++ [cssTransparentFix]
      else if p = "poor_contrast" then acc ++ [cssContrastFix]
      else if p = "menu_issues" then acc ++ [cssMenuFix]
      else acc) [])

/-- Embedding of `analyzeDomainPattern` (`ai-learning.js` lines 172-187):
fewer than 3 issues yield confidence 0 with no recommendation; otherwise
the confidence is the fixed-issue ratio and the recommendation is the
domain-specific CSS of the common problems. -/
def analyzeDomainPattern (issues : List Feedback) : ℚ × Option String :=
  let total := issues.length
  let fixed := (issues.filter (fun i => i.fixed)).length
  if total < 3 then (0, none)
  else ((fixed : ℚ) / (total : ℚ), some (generateDomainSpecificCSS (findCommonProblemsInDomain issues)))

/-- Element data passed to `generatePredictiveCSS`. -/
structure ElementData where
  tag : String
  classes : List String
deriving DecidableEq, Repr

/-- Page context passed to `generatePredictiveCSS`. -/
structure PageContext where
  url : String
deriving DecidableEq, Repr

/-- Result of `generatePredictiveCSS`: the CSS (`null` possible on the
learned path when no fix text was ever stored), the confidence, the
source bucket and the human-readable `basedOn` string. -/
structure Prediction where
  css : Option String
  confidence : ℚ
  source : String
  basedOn : String
deriving DecidableEq, Repr

/-- Domain-bucket branch of `generatePredictiveCSS` (`ai-learning.js`
lines 129-141): when the domain holds a bucket whose analyzed confidence
exceeds 0.5, its recommendation is returned; otherwise `null` (fall back
to the Gemini API). -/
def domainBranch (pats : Patterns) (domain : String) : Option Prediction :=
  match lookupA pats.websitePatterns domain with
  | some issues =>
    let dp := analyzeDomainPattern issues
    if 1 / 2 < dp.1 then
      some ⟨dp.2, dp.1, "domain_pattern", "Similar issues on " ++ domain⟩
    else none
  | none => none

/-- Embedding of `generatePredictiveCSS` (`ai-learning.js` lines
110-142): the patterns are recomputed from the feedback store; the global
element-key confidence bucket is consulted first, against the 0.7
`learningThreshold`; only when that check fails is the domain-specific
bucket consulted. -/
def generatePredictiveCSS (ed : ElementData) (pc : PageContext) (fb : List Feedback) :
    Option Prediction :=
  let pats := extractPatterns fb
  let ek := elementKey ed.tag ed.classes
  let domain := extractDomain pc.url
  match lookupA pats.confidence ek with
  | some c =>
    if 7 / 10 ≤ c then
      let sf := (lookupA pats.successfulFixes ek).getD (0, [])
      some ⟨findMostSuccessfulCSS sf.2, c, "learned_pattern", toString sf.1 ++ " previous fixes"⟩
    else domainBranch pats domain
  | none => domainBranch pats domain

/-! ## Backend proxy (`src/server/server.js`) -/

/-- Per-element-type effectiveness record of `analyzeHistoricalPatterns`
(`server.js` lines 256-277): attempt and success counters and the derived
`effectivenessRatio`. -/
structure SrvEff where
  totalAttempts : ℕ
  successfulFixes : ℕ
  effectivenessRatio : ℚ
deriving DecidableEq, Repr

/-- One issue of a domain bucket of `analyzeHistoricalPatterns`
(`server.js` lines 240-244). -/
structure SrvIssue where
  tag : String
  classes : List String
  fix : Option String
deriving DecidableEq, Repr

/-- The fields of the historical-pattern structure that `generateSmartCSS`
reads: `commonSelectors` (per class key: attempt count and recorded
fixes), `elementTypeEffectiveness` and `domainSpecificPatterns`.  The
`successfulCSSRules` and `temporalTrends` fields of the source structure
are not read by the decision policy and are omitted. -/
structure SrvPatterns where
  commonSelectors : List (String × (ℕ × List String))
  elementTypeEffectiveness : List (String × SrvEff)
  domainSpecificPatterns : List (String × List SrvIssue)
deriving Repr

/-- Page context of the smart-CSS endpoint (`pageContext.domain`, falsy
when empty). -/
structure SrvPageContext where
  domain : String
deriving DecidableEq, Repr

/-- Embedding of `findMostFrequentFix` (`server.js` lines 384-394):
`null` on an empty list, else the head of the frequency-sorted entries
(stable sort, descending counts). -/
def findMostFrequentFix (fixes : List String) : Option String :=
  if fixes = [] then none
  else
    let freq := fixes.foldl (fun m fix => bump m fix 0 (· + 1)) []
    match (sortByCountDesc freq).head? with
    | some p => some p.1
    | none => none

/-- JavaScript `Math.round` on the exact rational value. -/
def jsRound (q : ℚ) : ℤ :=
  ⌊q + 1 / 2⌋

/-- Embedding of `generateBasicDarkModeCSS` (`server.js` lines 397-421):
the fixed template table keyed by lowercased element type.  String braces
of the CSS templates are written with their escapes. -/
def generateBasicDarkModeCSS (ed : ElementData) : List String :=
  let selector := if ed.classes.length > 0 then "." ++ String.intercalate "." ed.classes else ed.tag
  let t := strLower ed.tag
  if t = "div" ∨ t = "section" then
    if ed.classes.any (fun cls => strContains cls "menu" || strContains cls "dropdown") then
      [selector ++ " \x7b background-color: #222 !important; color: #e0e0e0 !important; border: 1px solid #444 !important; \x7d"]
    else []
  else if t = "nav" then
    [selector ++ " \x7b background-color: #1a1a1a !important; color: #ffffff !important; \x7d"]
  else if t = "button" then
    [selector ++ " \x7b background-color: #333 !important; color: #e0e0e0 !important; border: 1px solid #555 !important; \x7d"]
  else if t = "input" then
    [selector ++ " \x7b background-color: #2a2a2a !important; color: #e0e0e0 !important; border: 1px solid #555 !important; \x7d"]
  else []

/-- Class-match branch of `generateSmartCSS` (`server.js` lines 339-350):
the most frequent recorded fix for the element's class key, provided the
element has classes, the key holds at least 3 recorded attempts, and the
chosen fix is truthy (non-null and non-empty). -/
def classMatchFix (ed : ElementData) (pats : SrvPatterns) : Option String :=
  if ed.classes.length > 0 then
    match lookupA pats.commonSelectors (String.intercalate "." ed.classes) with
    | some cf =>
      if 3 ≤ cf.1 then
        match findMostFrequentFix cf.2 with
        | some fix => if fix = "" then none else some fix
        | none => none
      else none
    | none => none
  else none

/-- Element-type bonus of `generateSmartCSS` (`server.js` lines 353-359):
0.3 when the tag is truthy, has an effectiveness record, and its ratio
exceeds 0.7. -/
def effBonus (ed : ElementData) (pats : SrvPatterns) : ℚ :=
  if ed.tag = "" then 0
  else
    match lookupA pats.elementTypeEffectiveness ed.tag with
    | some e => if 7 / 10 < e.effectivenessRatio then 3 / 10 else 0
    | none => 0

/-- Domain bonus of `generateSmartCSS` (`server.js` lines 362-368): 0.2
when the context carries a truthy domain holding a bucket with at least 2
issues. -/
def domBonus (pc : SrvPageContext) (pats : SrvPatterns) : ℚ :=
  if pc.domain = "" then 0
  else
    match lookupA pats.domainSpecificPatterns pc.domain with
    | some issues => if 2 ≤ issues.length then 1 / 5 else 0
    | none => 0

/-- Accumulated (pre-clamp) confidence of `generateSmartCSS`: 0.8 for a
used class-match fix, plus the element-type and domain bonuses. -/
def rawConf (ed : ElementData) (pc : SrvPageContext) (pats : SrvPatterns) : ℚ :=
  (if (classMatchFix ed pats).isSome then 4 / 5 else 0) + effBonus ed pats + domBonus pc pats

/-- Result record of `generateSmartCSS`. -/
structure SmartCSS where
  rules : String
  confidence : ℚ
  reasoning : List String
deriving DecidableEq, Repr

/-- Embedding of `generateSmartCSS` (`server.js` lines 333-381): the
class-match fix (confidence 0.8), the element-type bonus (0.3), the domain
bonus (0.2); when no rule was produced and the accumulated confidence
exceeds 0.3, the fixed template table supplies the rules.  The returned
confidence is clamped by `Math.min(confidence, 1.0)`. -/
def generateSmartCSS (ed : ElementData) (pc : SrvPageContext) (pats : SrvPatterns) : SmartCSS :=
  let cm := classMatchFix ed pats
  let conf := rawConf ed pc pats
  let rules₀ : List String := match cm with
    | some fix => [fix]
    | none => []
  let fixCount := match lookupA pats.commonSelectors (String.intercalate "." ed.classes) with
    | some cf => cf.2.length
    | none => 0
  let r₁ : List String := match cm with
    | some _ => ["Based on " ++ toString fixCount ++ " successful fixes for similar elements"]
    | none => []
  let r₂ : List String :=
    if ed.tag = "" then []
    else
      match lookupA pats.elementTypeEffectiveness ed.tag with
      | some e =>
        if 7 / 10 < e.effectivenessRatio then
          [ed.tag ++ " elements have " ++ toString (jsRound (e.effectivenessRatio * 100)) ++ "% fix success rate"]
        else []
      | none => []
  let r₃ : List String :=
    if pc.domain = "" then []
    else
      match lookupA pats.domainSpecificPatterns pc.domain with
      | some issues =>
        if 2 ≤ issues.length then
          ["Found " ++ toString issues.length ++ " similar issues on this domain"]
        else []
      | none => []
  let rules := if rules₀ = [] ∧ 3 / 10 < conf then generateBasicDarkModeCSS ed else rules₀
  let r₄ : List String :=
    if rules₀ = [] ∧ 3 / 10 < conf then ["Generated basic dark mode CSS based on element type"]
    else []
  ⟨String.intercalate "\n" rules, min conf 1, r₁ ++ r₂ ++ r₃ ++ r₄⟩

/-- Patch emitted by the `/api/smart-css-generation` endpoint. -/
structure EmittedPatch where
  css : String
  confidence : ℚ
  source : String
deriving DecidableEq, Repr

/-- Embedding of the decision of the `/api/smart-css-generation` endpoint
(`server.js` lines 309-324): the pattern-based patch is emitted only when
the generated confidence exceeds 0.6; otherwise the endpoint answers
`fallback_to_gemini` and no patch is emitted. -/
def smartCssEndpoint (ed : ElementData) (pc : SrvPageContext) (pats : SrvPatterns) :
    Option EmittedPatch :=
  let s := generateSmartCSS ed pc pats
  if 3 / 5 < s.confidence then some ⟨s.rules, s.confidence, "pattern_based"⟩ else none

/-! ## Concrete instances used by counterexamples and witnesses -/

/-- Concrete patch message used to refute C1. -/
def c1Msg : InjectMsg :=
  ⟨"div.menu \x7b background-color: #121212 !important; \x7d", none, "div.menu"⟩

/-- Concrete style block used to refute C2. -/
def c2Block : StyleBlock :=
  ⟨"body \x7b color: #e0e0e0 !important; \x7d", "gemini", "body", 1⟩

/-- Snapshot of a hidden element with non-empty text, used to witness the
real-time classifier's `hidden_content` emission. -/
def rtSnapW : RtSnapshot :=
  ⟨"static", "auto", "rgb(255, 255, 255)", "rgb(0, 0, 0)", "hidden", "Hidden text",
    none, none, [], false, 100, 50, 100, 50, 1920, 1080⟩

/-- Feedback store with a single successful fix, used to refute C3 and to
witness C8. -/
def c3Fb : List Feedback :=
  [⟨"DIV", ["menu"], "transparent menu", "https://a.com/page", true,
    some "div.menu \x7b background-color: #222 !important; \x7d"⟩]

/-- A further successful feedback entry for the same element key. -/
def c8Entry : Feedback :=
  ⟨"DIV", ["menu"], "transparent menu", "https://a.com/page", true, none⟩

/-- Element with a learned class-match pattern (server witness). -/
def srvEdW : ElementData := ⟨"div", ["menu"]⟩

/-- Page context with no domain (server witness). -/
def srvPcW : SrvPageContext := ⟨""⟩

/-- Historical patterns holding 3 recorded fixes for the `menu` class key
(server witness). -/
def srvPatsW : SrvPatterns := ⟨[("menu", (3, ["fixA", "fixA"]))], [], []⟩

/-- Element with no classes, hitting the template table (server witness). -/
def srvEdT : ElementData := ⟨"nav", []⟩

/-- Page context with a domain holding 2 recorded issues (server
witness). -/
def srvPcT : SrvPageContext := ⟨"site.com"⟩

/-- Historical patterns with an effective `nav` element type and a domain
bucket of 2 issues, but no class-match fix (server witness). -/
def srvPatsT : SrvPatterns :=
  ⟨[], [("nav", ⟨10, 8, 4 / 5⟩)], [("site.com", [⟨"NAV", [], none⟩, ⟨"DIV", [], none⟩])]⟩

/-- One successful feedback entry on domain `a.com` for element key
`DIV.menu`. -/
def c7Entry : Feedback :=
  ⟨"DIV", ["menu"], "transparent menu", "https://a.com/page", true,
    some "div.menu \x7b background-color: #222 !important; \x7d"⟩

/-- Seven successful entries: the element key reaches the 0.7 learning
threshold and the domain bucket of `a.com` holds 7 fixed issues. -/
def c7Fb : List Feedback := List.replicate 7 c7Entry

/-- Element data matching the learned key of `c7Fb`. -/
def c7Ed : ElementData := ⟨"DIV", ["menu"]⟩

/-- Page context on the domain of `c7Fb`. -/
def c7Pc : PageContext := ⟨"https://a.com/page"⟩

/-- One fixed issue on domain `b.com` under a key that never reaches the
learning threshold for the queried element. -/
def c7DomEntry : Feedback :=
  ⟨"NAV", [], "transparent menu", "https://b.com/x", true, none⟩

/-- Three fixed issues on `b.com`: the domain bucket qualifies while the
element-key bucket is empty. -/
def c7FbD : List Feedback := List.replicate 3 c7DomEntry

/-- Element data whose key holds no learned pattern in `c7FbD`. -/
def c7EdD : ElementData := ⟨"DIV", ["x"]⟩

/-- Page context on domain `b.com`. -/
def c7PcD : PageContext := ⟨"https://b.com/x"⟩

/-- The domain-bucket prediction produced on `c7FbD`. -/
def c7PredD : Prediction :=
  ⟨some (generateDomainSpecificCSS (findCommonProblemsInDomain c7FbD)),
    ((c7FbD.filter (fun i => i.fixed)).length : ℚ) / (c7FbD.length : ℚ),
    "domain_pattern", "Similar issues on " ++ "b.com"⟩

/-! ## Reference counters for the learning store -/

/-- Element key of one feedback entry. -/
def keyOf (f : Feedback) : String :=
  elementKey f.tag f.classes

/-- Number of successful (fixed) entries of the feedback data carrying a
given element key — the success count a Pattern Record accumulates. -/
def succCount (fb : List Feedback) (ek : String) : ℕ :=
  (fb.filter (fun f => f.fixed && decide (keyOf f = ek))).length

/-- Number of unsuccessful entries of the feedback data carrying a given
element key. -/
def failCount (fb : List Feedback) (ek : String) : ℕ :=
  (fb.filter (fun f => !f.fixed && decide (keyOf f = ek))).length

/-- Entries of the feedback data whose URL belongs to a given domain — the
issue bucket a domain accumulates. -/
def domFilter (fb : List Feedback) (d : String) : List Feedback :=
  fb.filter (fun f => decide (extractDomain f.url = d))

/-- Confidence formula asserted by the specification (spec.md, Pattern
Record): `successCount / (successCount + failureCount)`, clamped to
`[0, 1]`.  Stated from the spec's words, for comparison with the
implemented `extractPatterns` confidence. -/
def specCountConfidence (s f : ℕ) : ℚ :=
  max (min ((s : ℚ) / ((s : ℚ) + (f : ℚ))) 1) 0

/-! ## Helper lemmas -/

/-- Looking up the bumped key returns the updated value. -/
lemma lookupA_bump_self {A : Type} (m : List (String × A)) (k : String) (i : A) (f : A → A) :
    lookupA (bump m k i f) k = some (f ((lookupA m k).getD i)) := by
  induction m with
  | nil => simp [bump, lookupA]
  | cons hd tl ih =>
    obtain ⟨k₀, v⟩ := hd
    by_cases h : k₀ = k
    · subst h
      simp [bump, lookupA]
    · simp [bump, lookupA, h, ih]

/-- Looking up a different key is unaffected by a bump. -/
lemma lookupA_bump_ne {A : Type} (m : List (String × A)) {k k₁ : String} (i : A) (f : A → A)
    (h : k₁ ≠ k) : lookupA (bump m k i f) k₁ = lookupA m k₁ := by
  induction m with
  | nil => simp [bump, lookupA, Ne.symm h]
  | cons hd tl ih =>
    obtain ⟨k₀, v⟩ := hd
    by_cases h₀ : k₀ = k
    · subst h₀
      simp [bump, lookupA, Ne.symm h]
    · by_cases h₁ : k₀ = k₁ <;> simp [bump, lookupA, h₀, h₁, ih, h]

/-- Success count of the pattern record of one key, as an optional value
(`none` when the key has no record). -/
def sfCount (p : Patterns) (ek : String) : Option ℕ :=
  (lookupA p.successfulFixes ek).map Prod.fst

/-- Effect of one loop iteration on a success count. -/
lemma sfCount_extractStep (p : Patterns) (f : Feedback) (ek : String) :
    sfCount (extractStep p f) ek
      = if f.fixed = true ∧ keyOf f = ek then some ((sfCount p ek).getD 0 + 1)
        else sfCount p ek := by
  unfold sfCount extractStep
  cases hf : f.fixed with
  | false => simp [hf]
  | true =>
    by_cases hk : keyOf f = ek
    · subst hk
      simp only [keyOf, elementKey] at *
      simp [hf, lookupA_bump_self]
      cases h : lookupA p.successfulFixes (f.tag ++ "." ++ String.intercalate "." f.classes) <;>
        simp [h]
    · have hne : ek ≠ elementKey f.tag f.classes := fun hh => hk (by simp [keyOf, hh])
      simp [hf, hk, lookupA_bump_ne _ _ _ hne]

/-- Success count of a filtered cons. -/
lemma succCount_cons (f : Feedback) (fb : List Feedback) (ek : String) :
    succCount (f :: fb) ek
      = (if f.fixed = true ∧ keyOf f = ek then 1 else 0) + succCount fb ek := by
  unfold succCount
  rw [List.filter_cons]
  by_cases h : f.fixed = true ∧ keyOf f = ek
  · rw [if_pos h]
    simp [h.1, h.2, Nat.add_comm]
  · rw [if_neg h]
    rcases Decidable.not_and_iff_or_not.mp h with h₁ | h₂
    · simp [h₁]
    · simp [h₂]

/-- The fold of the extraction loop accumulates exactly the filtered
success count on every key. -/
lemma sfCount_foldl (fb : List Feedback) (p : Patterns) (ek : String) :
    sfCount (fb.foldl extractStep p) ek
      = if sfCount p ek = none ∧ succCount fb ek = 0 then none
        else some ((sfCount p ek).getD 0 + succCount fb ek) := by
  induction fb generalizing p with
  | nil =>
    cases h : sfCount p ek <;> simp [succCount, h]
  | cons f fb ih =>
    rw [List.foldl_cons, ih, sfCount_extractStep, succCount_cons]
    by_cases hc : f.fixed = true ∧ keyOf f = ek
    · rw [if_pos hc, if_pos hc]
      rw [if_neg (by simp)]
      rw [if_neg (by simp [Nat.add_comm])]
      cases h : sfCount p ek <;> simp [h] <;> omega
    · rw [if_neg hc, if_neg hc]
      simp

/-- Lookup in the derived confidence map is the mapped lookup of the
success records. -/
lemma lookupA_confMap (m : List (String × (ℕ × List String))) (k : String) :
    lookupA (m.map (fun p => (p.1, min ((p.2.1 : ℚ) / 10) 1))) k
      = (lookupA m k).map (fun v => min ((v.1 : ℚ) / 10) 1) := by
  induction m with
  | nil => simp [lookupA]
  | cons hd tl ih =>
    obtain ⟨k₀, v⟩ := hd
    by_cases h : k₀ = k <;> simp [lookupA, h, ih]

/-- The confidence of a pattern record is `min(successCount/10, 1)`, and a
key has a confidence entry exactly when it has at least one success. -/
lemma confidence_lookup (fb : List Feedback) (ek : String) :
    lookupA (extractPatterns fb).confidence ek
      = if succCount fb ek = 0 then none
        else some (min ((succCount fb ek : ℚ) / 10) 1) := by
  unfold extractPatterns
  simp only []
  rw [lookupA_confMap]
  have hs := sfCount_foldl fb ⟨[], [], [], []⟩ ek
  rw [show sfCount ⟨[], [], [], []⟩ ek = none from rfl] at hs
  simp only [eq_self_iff_true, true_and, Option.getD_none, Nat.zero_add] at hs
  unfold sfCount at hs
  by_cases hz : succCount fb ek = 0
  · rw [if_pos hz] at hs
    rw [if_pos hz]
    cases hL : lookupA (List.foldl extractStep ⟨[], [], [], []⟩ fb).successfulFixes ek
    · rfl
    · rw [hL] at hs
      simp at hs
  · rw [if_neg hz] at hs
    rw [if_neg hz]
    cases hL : lookupA (List.foldl extractStep ⟨[], [], [], []⟩ fb).successfulFixes ek
    · rw [hL] at hs
      simp at hs
    · rw [hL] at hs
      simp only [Option.map_some'] at hs ⊢
      rw [Option.some.injEq] at hs
      rw [hs]

/-- Effect of one loop iteration on a domain bucket. -/
lemma wpLookup_extractStep (p : Patterns) (f : Feedback) (d : String) :
    lookupA (extractStep p f).websitePatterns d
      = if extractDomain f.url = d
        then some ((lookupA p.websitePatterns d).getD [] ++ [f])
        else lookupA p.websitePatterns d := by
  unfold extractStep
  by_cases hd : extractDomain f.url = d
  · subst hd
    rw [if_pos rfl]
    cases hf : f.fixed <;> simp [lookupA_bump_self]
  · rw [if_neg hd]
    cases hf : f.fixed <;> simp [lookupA_bump_ne _ _ _ (Ne.symm hd)]

/-- Cons step of the domain filter. -/
lemma domFilter_cons (f : Feedback) (fb : List Feedback) (d : String) :
    domFilter (f :: fb) d
      = (if extractDomain f.url = d then [f] else []) ++ domFilter fb d := by
  unfold domFilter
  rw [List.filter_cons]
  by_cases h : extractDomain f.url = d <;> simp [h]

/-- The fold of the extraction loop accumulates exactly the domain-filtered
entries in every domain bucket. -/
lemma wpLookup_foldl (fb : List Feedback) (p : Patterns) (d : String) :
    lookupA (fb.foldl extractStep p).websitePatterns d
      = if lookupA p.websitePatterns d = none ∧ domFilter fb d = [] then none
        else some ((lookupA p.websitePatterns d).getD [] ++ domFilter fb d) := by
  induction fb generalizing p with
  | nil =>
    cases h : lookupA p.websitePatterns d <;> simp [domFilter, h]
  | cons f fb ih =>
    rw [List.foldl_cons, ih, wpLookup_extractStep, domFilter_cons]
    by_cases hc : extractDomain f.url = d
    · rw [if_pos hc, if_pos hc]
      rw [if_neg (by simp)]
      rw [if_neg (by simp)]
      cases h : lookupA p.websitePatterns d <;> simp [h]
    · rw [if_neg hc, if_neg hc]
      simp

/-- A domain bucket of the extracted patterns holds exactly the feedback
entries of that domain. -/
lemma websitePatterns_lookup (fb : List Feedback) (d : String) :
    lookupA (extractPatterns fb).websitePatterns d
      = if domFilter fb d = [] then none else some (domFilter fb d) := by
  unfold extractPatterns
  simp only []
  rw [wpLookup_foldl]
  rw [show lookupA (⟨[], [], [], []⟩ : Patterns).websitePatterns d = none from rfl]
  simp only [eq_self_iff_true, true_and, Option.getD_none, List.nil_append]

/-- Both storage caps have the shape `drop (length + 1 - N) ++ [new]`. -/
lemma capShape {α : Type} (N : ℕ) (hN : 0 < N) (prev : List α) (e : α) :
    (if N < (prev ++ [e]).length then (prev ++ [e]).drop ((prev ++ [e]).length - N)
     else prev ++ [e]) = prev.drop (prev.length + 1 - N) ++ [e] := by
  have hlen : (prev ++ [e]).length = prev.length + 1 := by simp
  by_cases h : N < (prev ++ [e]).length
  · rw [if_pos h, hlen]
    have hk : prev.length + 1 - N ≤ prev.length := by omega
    exact List.drop_append_of_le_length hk
  · rw [if_neg h]
    have : prev.length + 1 - N = 0 := by rw [hlen] at h; omega
    rw [this, List.drop_zero]

/-- Explicit form of the engine storage step. -/
lemma engineStoreStep_eq {α : Type} (prev : List α) (e : α) :
    engineStoreStep prev e = prev.drop (prev.length + 1 - 500) ++ [e] :=
  capShape 500 (by norm_num) prev e

/-- Explicit form of the popup storage step. -/
lemma popupStoreStep_eq {α : Type} (prev : List α) (e : α) :
    popupStoreStep prev e = prev.drop (prev.length + 1 - 100) ++ [e] :=
  capShape 100 (by norm_num) prev e

/-- The element-type bonus is between 0 and 0.3. -/
lemma effBonus_bounds (ed : ElementData) (pats : SrvPatterns) :
    0 ≤ effBonus ed pats ∧ effBonus ed pats ≤ 3 / 10 := by
  unfold effBonus
  by_cases ht : ed.tag = ""
  · rw [if_pos ht]
    norm_num
  · rw [if_neg ht]
    cases h : lookupA pats.elementTypeEffectiveness ed.tag
    · norm_num
    · simp only []
      split_ifs <;> norm_num

/-- The domain bonus is between 0 and 0.2. -/
lemma domBonus_bounds (pc : SrvPageContext) (pats : SrvPatterns) :
    0 ≤ domBonus pc pats ∧ domBonus pc pats ≤ 1 / 5 := by
  unfold domBonus
  by_cases hd : pc.domain = ""
  · rw [if_pos hd]
    norm_num
  · rw [if_neg hd]
    cases h : lookupA pats.domainSpecificPatterns pc.domain
    · norm_num
    · simp only []
      split_ifs <;> norm_num

/-- The accumulated confidence of `generateSmartCSS` is nonnegative. -/
lemma rawConf_nonneg (ed : ElementData) (pc : SrvPageContext) (pats : SrvPatterns) :
    0 ≤ rawConf ed pc pats := by
  unfold rawConf
  have h₁ := (effBonus_bounds ed pats).1
  have h₂ := (domBonus_bounds pc pats).1
  split_ifs <;> linarith

/-- Without a class-match fix the accumulated confidence is at most 0.5. -/
lemma rawConf_le_of_none (ed : ElementData) (pc : SrvPageContext) (pats : SrvPatterns)
    (h : classMatchFix ed pats = none) : rawConf ed pc pats ≤ 1 / 2 := by
  unfold rawConf
  rw [h]
  have h₁ := (effBonus_bounds ed pats).2
  have h₂ := (domBonus_bounds pc pats).2
  simp only [Option.isSome_none, Bool.false_eq_true, if_false]
  linarith

/-- The confidence field of `generateSmartCSS` is the clamped accumulated
confidence. -/
lemma generateSmartCSS_confidence (ed : ElementData) (pc : SrvPageContext)
    (pats : SrvPatterns) :
    (generateSmartCSS ed pc pats).confidence = min (rawConf ed pc pats) 1 := rfl

/-- The endpoint decision, with the lets of the definition resolved. -/
lemma smartCssEndpoint_eq (ed : ElementData) (pc : SrvPageContext) (pats : SrvPatterns) :
    smartCssEndpoint ed pc pats
      = if 3 / 5 < (generateSmartCSS ed pc pats).confidence then
          some ⟨(generateSmartCSS ed pc pats).rules, (generateSmartCSS ed pc pats).confidence,
            "pattern_based"⟩
        else none := rfl

/-- A used class-match fix certifies a nonempty class list and a stored
selector record with at least 3 prior observations. -/
lemma classMatchFix_isSome_facts (ed : ElementData) (pats : SrvPatterns)
    (h : (classMatchFix ed pats).isSome = true) :
    ed.classes.length > 0 ∧
      ∃ cf, lookupA pats.commonSelectors (String.intercalate "." ed.classes) = some cf ∧
        3 ≤ cf.1 := by
  unfold classMatchFix at h
  by_cases h₁ : ed.classes.length > 0
  · rw [if_pos h₁] at h
    cases h₂ : lookupA pats.commonSelectors (String.intercalate "." ed.classes) with
    | none =>
      rw [h₂] at h
      simp at h
    | some cf =>
      rw [h₂] at h
      refine ⟨h₁, cf, rfl, ?_⟩
      by_contra h₃
      simp [h₃] at h
  · rw [if_neg h₁] at h
    simp at h

/-- The linearization fixes the channel value 1 (a 255 channel). -/
lemma linChannel_one : linChannel 1 = 1 := by
  unfold linChannel
  rw [if_neg (by norm_num)]
  have h : ((1 : ℝ) + 0.055) / 1.055 = 1 := by norm_num
  rw [h, Real.one_rpow]

/-- Relative luminance of pure white is 1. -/
lemma lumRGB_white : lumRGB 255 255 255 = 1 := by
  unfold lumRGB
  have h : ((255 : ℕ) : ℝ) / 255 = 1 := by norm_num
  rw [h, linChannel_one]
  norm_num

/-- Record-level luminance of pure white is 1. -/
lemma getLuminance_white : getLuminance ⟨255, 255, 255, 1⟩ = 1 := by
  unfold getLuminance
  have h : ((255 : ℕ) : ℝ) / 255 = 1 := by norm_num
  rw [h, linChannel_one]
  norm_num

/-- Contrast of white on white is exactly 1. -/
lemma contrast_white_white : calculateContrast ⟨255, 255, 255, 1⟩ ⟨255, 255, 255, 1⟩ = 1 := by
  unfold calculateContrast
  rw [getLuminance_white, max_self, min_self]
  norm_num

/-- String-level luminance of `rgb(255, 255, 255)` is 1. -/
lemma getColorLuminance_white : getColorLuminance "rgb(255, 255, 255)" = some 1 := by
  unfold getColorLuminance
  rw [if_neg (by decide), if_pos (by decide)]
  have hd : digitRuns "rgb(255, 255, 255)" = [['2', '5', '5'], ['2', '5', '5'], ['2', '5', '5']] := by
    decide
  rw [hd]
  show some (lumRGB (natOfDigits ['2', '5', '5']) (natOfDigits ['2', '5', '5'])
      (natOfDigits ['2', '5', '5'])) = some 1
  have hn : natOfDigits ['2', '5', '5'] = 255 := by decide
  rw [hn, lumRGB_white]

/-- White on white has poor contrast in the string-level check. -/
lemma haspoorContrast_white : haspoorContrast "rgb(255, 255, 255)" "rgb(255, 255, 255)" := by
  refine ⟨1, 1, getColorLuminance_white, getColorLuminance_white, ?_⟩
  rw [max_self, min_self]
  norm_num

/-! ## Claim theorems -/

/-- C1 (amended): the `inject-darkmode-css` handler always appends a fresh
style block; applying the same patch message to the same node twice leaves
two active style blocks for that node — the previous patch is stacked, not
replaced. -/
theorem c1_patch_application_stacks (s : PageState) (m : InjectMsg) (t₁ t₂ : ℕ) :
    (injectDarkmodeCSS m t₁ s).styles
        = s.styles ++ [⟨m.css, m.source.getD "gemini", m.elementInfo, t₁⟩] ∧
    activeBlocksFor (injectDarkmodeCSS m t₂ (injectDarkmodeCSS m t₁ s)) m.elementInfo
        = activeBlocksFor s m.elementInfo + 2 := by
  refine ⟨rfl, ?_⟩
  simp [activeBlocksFor, injectDarkmodeCSS, List.filter_append]

/-- C1 (counterexample): injecting the same patch twice into an empty
document leaves two active style blocks for the node, not one as the claim
states. -/
theorem c1_counterexample :
    activeBlocksFor (injectDarkmodeCSS c1Msg 2 (injectDarkmodeCSS c1Msg 1 ⟨[], true⟩))
        c1Msg.elementInfo = 2 ∧ (2 : ℕ) ≠ 1 := by
  constructor
  · decide
  · decide

/-- C2 (amended): the `TOGGLE_DARK_MODE` handler with `enabled = false`
removes only the top-level `universal-dark-mode` marker; every injected
style block is left in place. -/
theorem c2_disable_removes_only_marker (s : PageState) :
    (toggleDarkMode false s).darkClass = false ∧ (toggleDarkMode false s).styles = s.styles :=
  ⟨rfl, rfl⟩

/-- C2 (counterexample): disabling dark mode on a document holding one
injected style block leaves that style block in the document, so the
post-state does not contain zero injected dark-mode style blocks. -/
theorem c2_counterexample :
    (toggleDarkMode false ⟨[c2Block], true⟩).darkClass = false ∧
    (toggleDarkMode false ⟨[c2Block], true⟩).styles.length = 1 ∧
    ¬ ((toggleDarkMode false ⟨[c2Block], true⟩).styles.length = 0) := by
  refine ⟨rfl, rfl, ?_⟩
  decide

/-- C4: with background `rgb(255,255,255)` and foreground
`rgb(255,255,255)` the contrast ratio is exactly 1, which is below 3, so
the page analyzer emits the `poor_contrast` tag; and the luminance entering
the contrast computation is the linearized-sRGB combination
`0.2126 R + 0.7152 G + 0.0722 B`. -/
theorem c4_white_on_white_poor_contrast :
    calculateContrast ⟨255, 255, 255, 1⟩ ⟨255, 255, 255, 1⟩ = 1 ∧ (1 : ℝ) < 3 ∧
    haspoorContrast "rgb(255, 255, 255)" "rgb(255, 255, 255)" ∧
    "poor_contrast" ∈ pageAnalysisTags "rgb(255, 255, 255)" "rgb(255, 255, 255)" ∧
    (∀ c : Color, getLuminance c
        = 0.2126 * linChannel ((c.r : ℝ) / 255) + 0.7152 * linChannel ((c.g : ℝ) / 255)
          + 0.0722 * linChannel ((c.b : ℝ) / 255)) :=
  ⟨contrast_white_white, by norm_num, haspoorContrast_white,
   Or.inr ⟨rfl, haspoorContrast_white⟩, fun _ => rfl⟩

/-- C5: for every snapshot whose visibility is `hidden` and whose text
content is non-empty (truthy after trimming, as the code tests it), the
real-time defect classifier emits the `hidden_content` tag; and every tag
it emits belongs to its fixed taxonomy. -/
theorem c5_hidden_content_emitted (st : RtSnapshot) (h₁ : st.visibility = "hidden")
    (h₂ : st.textContent ≠ "") (h₃ : strTrim st.textContent ≠ "") :
    "hidden_content" ∈ rtProblems st ∧
    ∀ t ∈ rtProblems st,
      t ∈ ["transparent_menu_background", "poor_contrast", "white_background",
        "hidden_content"] := by
  constructor
  · unfold rtProblems
    refine List.mem_append.mpr (Or.inr ?_)
    rw [if_pos ⟨h₁, h₂, h₃⟩]
    exact List.mem_singleton.mpr rfl
  · intro t ht
    unfold rtProblems at ht
    rcases List.mem_append.mp ht with h₀ | h₄
    · rcases List.mem_append.mp h₀ with h₁₂ | h₃₃
      · rcases List.mem_append.mp h₁₂ with hm | hp
        · split at hm
          · split at hm
            · rw [List.mem_singleton] at hm
              subst hm
              decide
            · exact absurd hm (List.not_mem_nil t)
          · exact absurd hm (List.not_mem_nil t)
        · split at hp
          · rw [List.mem_singleton] at hp
            subst hp
            decide
          · exact absurd hp (List.not_mem_nil t)
      · split at h₃₃
        · rw [List.mem_singleton] at h₃₃
          subst h₃₃
          decide
        · exact absurd h₃₃ (List.not_mem_nil t)
    · split at h₄
      · rw [List.mem_singleton] at h₄
        subst h₄
        decide
      · exact absurd h₄ (List.not_mem_nil t)

/-- C5 (witness): a hidden snapshot with text `Hidden text` receives the
`hidden_content` tag. -/
theorem c5_witness :
    rtSnapW.visibility = "hidden" ∧ rtSnapW.textContent ≠ "" ∧
    strTrim rtSnapW.textContent ≠ "" ∧ "hidden_content" ∈ rtProblems rtSnapW :=
  ⟨rfl, by decide, by decide,
   (c5_hidden_content_emitted rtSnapW rfl (by decide) (by decide)).1⟩

/-- C9: `parseColor` is total by construction; falsy input and the literal
`transparent` yield transparent black, and every string matching neither
the `rgba?` search pattern nor the anchored 3/6-digit hex pattern yields
opaque black — so named CSS colors classify as opaque black. -/
theorem c9_parseColor_defaults (s : String) :
    (s = "" ∨ s = "transparent" → parseColor s = ⟨0, 0, 0, 0⟩) ∧
    (¬ (s = "" ∨ s = "transparent") → rgbaSearch s.data = none → hexMatch s.data = none →
        parseColor s = ⟨0, 0, 0, 1⟩) := by
  constructor
  · intro h
    simp [parseColor, h]
  · intro h h₁ h₂
    simp [parseColor, h, h₁, h₂]

/-- C9 (witness): `transparent` yields transparent black and the named
color `red` yields opaque black. -/
theorem c9_witness :
    parseColor "transparent" = ⟨0, 0, 0, 0⟩ ∧ parseColor "red" = ⟨0, 0, 0, 1⟩ :=
  ⟨(c9_parseColor_defaults "transparent").1 (Or.inr rfl),
   (c9_parseColor_defaults "red").2 (by decide) (by decide) (by decide)⟩

/-- C10: both learning logs are bounded — the engine's success-metrics
list never exceeds 500 entries and the popup's fix-tracking list never
exceeds 100; the new entry is always kept last, and at the cap the oldest
entry is dropped to make room for it. -/
theorem c10_storage_caps {α : Type} (prev : List α) (e : α) :
    (engineStoreStep prev e).length ≤ 500 ∧
    (engineStoreStep prev e).getLast? = some e ∧
    (popupStoreStep prev e).length ≤ 100 ∧
    (popupStoreStep prev e).getLast? = some e ∧
    (prev.length = 500 → engineStoreStep prev e = prev.drop 1 ++ [e]) ∧
    (prev.length = 100 → popupStoreStep prev e = prev.drop 1 ++ [e]) := by
  refine ⟨?_, ?_, ?_, ?_, ?_, ?_⟩
  · rw [engineStoreStep_eq]
    simp only [List.length_append, List.length_drop, List.length_cons, List.length_nil]
    omega
  · rw [engineStoreStep_eq]
    exact List.getLast?_concat _
  · rw [popupStoreStep_eq]
    simp only [List.length_append, List.length_drop, List.length_cons, List.length_nil]
    omega
  · rw [popupStoreStep_eq]
    exact List.getLast?_concat _
  · intro h
    rw [engineStoreStep_eq, h]
  · intro h
    rw [popupStoreStep_eq, h]

/-- C10 (witness): at the caps, the oldest entry is dropped and the list
stays at its bound. -/
theorem c10_witness :
    engineStoreStep (List.replicate 500 (0 : ℕ)) 7
        = (List.replicate 500 (0 : ℕ)).drop 1 ++ [7] ∧
    popupStoreStep (List.replicate 100 (0 : ℕ)) 7
        = (List.replicate 100 (0 : ℕ)).drop 1 ++ [7] ∧
    (engineStoreStep (List.replicate 500 (0 : ℕ)) 7).length ≤ 500 :=
  ⟨(c10_storage_caps _ 7).2.2.2.2.1 (by rw [List.length_replicate]),
   (c10_storage_caps _ 7).2.2.2.2.2 (by rw [List.length_replicate]),
   (c10_storage_caps _ 7).1⟩

/-- C3 (amended): the confidence of every Pattern Record derived from the
feedback data equals `min(successCount/10, 1)` — counting only the fixed
entries of its element key; the failure count does not enter the
formula. -/
theorem c3_confidence_is_success_count_over_ten (fb : List Feedback) (ek : String) :
    lookupA (extractPatterns fb).confidence ek
      = if succCount fb ek = 0 then none
        else some (min ((succCount fb ek : ℚ) / 10) 1) :=
  confidence_lookup fb ek

/-- Lookup of the single-success store evaluates to confidence 1/10. -/
lemma c3Fb_lookup : lookupA (extractPatterns c3Fb).confidence "DIV.menu" = some (1 / 10) := by
  rw [confidence_lookup, show succCount c3Fb "DIV.menu" = 1 from by decide]
  norm_num

/-- C3 (counterexample): one successful entry and no failures give
confidence 1/10 in the code, while the claimed formula
`successCount/(successCount+failureCount)` clamped to `[0,1]` gives 1. -/
theorem c3_counterexample :
    lookupA (extractPatterns c3Fb).confidence "DIV.menu" = some (1 / 10) ∧
    succCount c3Fb "DIV.menu" = 1 ∧ failCount c3Fb "DIV.menu" = 0 ∧
    specCountConfidence (succCount c3Fb "DIV.menu") (failCount c3Fb "DIV.menu") = 1 ∧
    ((1 : ℚ) / 10) ≠ 1 := by
  refine ⟨c3Fb_lookup, by decide, by decide, ?_, by norm_num⟩
  rw [show succCount c3Fb "DIV.menu" = 1 from by decide,
    show failCount c3Fb "DIV.menu" = 0 from by decide]
  norm_num [specCountConfidence]

/-- C8: every confidence the learning pipeline produces is a probability in
`[0, 1]`; appending a successful observation never lowers a pattern's
confidence; and the server-side generated confidence is clamped into
`[0, 1]` as well. -/
theorem c8_confidence_probabilities :
    (∀ (fb : List Feedback) (ek : String) (c : ℚ),
        lookupA (extractPatterns fb).confidence ek = some c → 0 ≤ c ∧ c ≤ 1) ∧
    (∀ (fb : List Feedback) (ek : String) (e : Feedback), e.fixed = true →
        (lookupA (extractPatterns fb).confidence ek).getD 0
          ≤ (lookupA (extractPatterns (fb ++ [e])).confidence ek).getD 0) ∧
    (∀ (ed : ElementData) (pc : SrvPageContext) (pats : SrvPatterns),
        0 ≤ (generateSmartCSS ed pc pats).confidence ∧
          (generateSmartCSS ed pc pats).confidence ≤ 1) := by
  refine ⟨?_, ?_, ?_⟩
  · intro fb ek c h
    rw [confidence_lookup] at h
    by_cases hz : succCount fb ek = 0
    · rw [if_pos hz] at h
      exact absurd h (by simp)
    · rw [if_neg hz, Option.some.injEq] at h
      subst h
      exact ⟨le_min (by positivity) (by norm_num), min_le_right _ _⟩
  · intro fb ek e _
    have hmono : succCount fb ek ≤ succCount (fb ++ [e]) ek := by
      unfold succCount
      rw [List.filter_append, List.length_append]
      exact Nat.le_add_right _ _
    rw [confidence_lookup, confidence_lookup]
    by_cases h₁ : succCount fb ek = 0
    · rw [if_pos h₁]
      simp only [Option.getD_none]
      by_cases h₂ : succCount (fb ++ [e]) ek = 0
      · rw [if_pos h₂]
        simp
      · rw [if_neg h₂]
        simp only [Option.getD_some]
        exact le_min (by positivity) (by norm_num)
    · have h₂ : ¬ succCount (fb ++ [e]) ek = 0 := fun hz => h₁ (Nat.le_zero.mp (hz ▸ hmono))
      rw [if_neg h₁, if_neg h₂]
      simp only [Option.getD_some]
      refine min_le_min ?_ le_rfl
      exact (div_le_div_iff_of_pos_right (by norm_num)).mpr (Nat.cast_le.mpr hmono)
  · intro ed pc pats
    rw [generateSmartCSS_confidence]
    exact ⟨le_min (rawConf_nonneg ed pc pats) (by norm_num), min_le_right _ _⟩

/-- C8 (witness): the bounds at a store with one success, monotonicity
under one added success, and the server confidence bounds at a concrete
pattern table. -/
theorem c8_witness :
    (0 ≤ (1 / 10 : ℚ) ∧ (1 / 10 : ℚ) ≤ 1) ∧
    (lookupA (extractPatterns c3Fb).confidence "DIV.menu").getD 0
      ≤ (lookupA (extractPatterns (c3Fb ++ [c8Entry])).confidence "DIV.menu").getD 0 ∧
    (0 ≤ (generateSmartCSS srvEdW srvPcW srvPatsW).confidence ∧
      (generateSmartCSS srvEdW srvPcW srvPatsW).confidence ≤ 1) :=
  ⟨c8_confidence_probabilities.1 c3Fb "DIV.menu" (1 / 10) c3Fb_lookup,
   c8_confidence_probabilities.2.1 c3Fb "DIV.menu" c8Entry rfl,
   c8_confidence_probabilities.2.2 srvEdW srvPcW srvPatsW⟩

/-- C6: the smart-CSS decision policy is threshold-gated in order — a
patch is emitted only when the generated confidence is at least 0.6, which
forces a used class-match (learned) fix backed by at least 3 prior
observations; the fixed template table is used only when the accumulated
element-type/domain confidence is at least 0.3 and no learned fix was
produced; and without a learned fix the endpoint emits no patch at all. -/
theorem c6_threshold_gates (ed : ElementData) (pc : SrvPageContext) (pats : SrvPatterns) :
    (∀ p : EmittedPatch, smartCssEndpoint ed pc pats = some p →
        (3 / 5 : ℚ) ≤ p.confidence ∧ (classMatchFix ed pats).isSome = true ∧
        ed.classes.length > 0 ∧
        ∃ cf, lookupA pats.commonSelectors (String.intercalate "." ed.classes) = some cf ∧
          3 ≤ cf.1) ∧
    (classMatchFix ed pats = none → 3 / 10 < rawConf ed pc pats →
        (3 / 10 : ℚ) ≤ rawConf ed pc pats ∧
        (generateSmartCSS ed pc pats).rules
          = String.intercalate "\n" (generateBasicDarkModeCSS ed)) ∧
    (classMatchFix ed pats = none → smartCssEndpoint ed pc pats = none) := by
  have hnone : classMatchFix ed pats = none →
      (generateSmartCSS ed pc pats).confidence ≤ 1 / 2 := by
    intro h
    rw [generateSmartCSS_confidence]
    exact le_trans (min_le_left _ _) (rawConf_le_of_none ed pc pats h)
  refine ⟨?_, ?_, ?_⟩
  · intro p hp
    rw [smartCssEndpoint_eq] at hp
    by_cases hgt : 3 / 5 < (generateSmartCSS ed pc pats).confidence
    · rw [if_pos hgt, Option.some.injEq] at hp
      subst hp
      have hsome : (classMatchFix ed pats).isSome = true := by
        by_contra hn
        have h0 : classMatchFix ed pats = none :=
          Option.not_isSome_iff_eq_none.mp (by simpa using hn)
        have := hnone h0
        linarith
      obtain ⟨h₁, cf, h₂, h₃⟩ := classMatchFix_isSome_facts ed pats hsome
      exact ⟨le_of_lt hgt, hsome, h₁, cf, h₂, h₃⟩
    · rw [if_neg hgt] at hp
      exact absurd hp (by simp)
  · intro h1 h2
    refine ⟨le_of_lt h2, ?_⟩
    simp only [generateSmartCSS, h1]
    rw [if_pos (And.intro trivial h2)]
  · intro h1
    rw [smartCssEndpoint_eq, if_neg]
    exact not_lt.mpr (le_trans (hnone h1) (by norm_num))

/-- The accumulated server confidence of the learned-fix witness input. -/
lemma srvW_rawConf : rawConf srvEdW srvPcW srvPatsW = 4 / 5 := by
  unfold rawConf
  rw [show classMatchFix srvEdW srvPatsW = some "fixA" from by decide]
  rw [show effBonus srvEdW srvPatsW = 0 from by simp [effBonus, srvEdW, srvPatsW, lookupA]]
  rw [show domBonus srvPcW srvPatsW = 0 from by simp [domBonus, srvPcW]]
  norm_num

/-- The endpoint emits the learned fix on the witness input. -/
lemma srvW_endpoint :
    smartCssEndpoint srvEdW srvPcW srvPatsW = some ⟨"fixA", 4 / 5, "pattern_based"⟩ := by
  have hconf : (generateSmartCSS srvEdW srvPcW srvPatsW).confidence = 4 / 5 := by
    rw [generateSmartCSS_confidence, srvW_rawConf]
    norm_num
  have hrules : (generateSmartCSS srvEdW srvPcW srvPatsW).rules = "fixA" := by
    simp only [generateSmartCSS]
    rw [show classMatchFix srvEdW srvPatsW = some "fixA" from by decide]
    rw [if_neg (by simp)]
    decide
  rw [smartCssEndpoint_eq, if_pos (by rw [hconf]; norm_num), hconf, hrules]

/-- The accumulated server confidence of the template witness input. -/
lemma srvT_rawConf : rawConf srvEdT srvPcT srvPatsT = 1 / 2 := by
  unfold rawConf
  rw [show classMatchFix srvEdT srvPatsT = none from by decide]
  have he : effBonus srvEdT srvPatsT = 3 / 10 := by
    unfold effBonus
    rw [if_neg (by decide)]
    rw [show lookupA srvPatsT.elementTypeEffectiveness srvEdT.tag
        = some ⟨10, 8, 4 / 5⟩ from rfl]
    show (if (7 : ℚ) / 10 < (⟨10, 8, 4 / 5⟩ : SrvEff).effectivenessRatio
        then (3 : ℚ) / 10 else 0) = 3 / 10
    rw [if_pos (by norm_num)]
  have hd : domBonus srvPcT srvPatsT = 1 / 5 := by
    unfold domBonus
    rw [if_neg (by decide)]
    rw [show lookupA srvPatsT.domainSpecificPatterns srvPcT.domain
        = some [⟨"NAV", [], none⟩, ⟨"DIV", [], none⟩] from rfl]
    show (if 2 ≤ ([⟨"NAV", [], none⟩, ⟨"DIV", [], none⟩] : List SrvIssue).length
        then (1 : ℚ) / 5 else 0) = 1 / 5
    rw [if_pos (by norm_num)]
  rw [he, hd]
  norm_num

/-- C6 (witness): on a table with 3 recorded fixes for the queried class
key the endpoint emits a patch with confidence 0.8 ≥ 0.6 and the gates of
the theorem hold; on a table with only element-type/domain signal the
template path fires above 0.3 and the endpoint emits nothing. -/
theorem c6_witness :
    ((3 / 5 : ℚ) ≤ (4 / 5 : ℚ) ∧ (classMatchFix srvEdW srvPatsW).isSome = true ∧
      srvEdW.classes.length > 0 ∧
      ∃ cf, lookupA srvPatsW.commonSelectors (String.intercalate "." srvEdW.classes)
          = some cf ∧ 3 ≤ cf.1) ∧
    ((3 / 10 : ℚ) ≤ rawConf srvEdT srvPcT srvPatsT ∧
      (generateSmartCSS srvEdT srvPcT srvPatsT).rules
        = String.intercalate "\n" (generateBasicDarkModeCSS srvEdT)) ∧
    smartCssEndpoint srvEdT srvPcT srvPatsT = none := by
  refine ⟨?_, ?_, ?_⟩
  · exact (c6_threshold_gates srvEdW srvPcW srvPatsW).1 ⟨"fixA", 4 / 5, "pattern_based"⟩
      srvW_endpoint
  · exact (c6_threshold_gates srvEdT srvPcT srvPatsT).2.1 (by decide)
      (by rw [srvT_rawConf]; norm_num)
  · exact (c6_threshold_gates srvEdT srvPcT srvPatsT).2.2 (by decide)

/-- Reduction of `analyzeDomainPattern` below the sample-size gate. -/
lemma analyzeDomainPattern_lt (issues : List Feedback) (h : issues.length < 3) :
    analyzeDomainPattern issues = (0, none) := by
  simp only [analyzeDomainPattern]
  rw [if_pos h]

/-- Reduction of `analyzeDomainPattern` at or above the sample-size
gate. -/
lemma analyzeDomainPattern_ge (issues : List Feedback) (h : ¬ issues.length < 3) :
    analyzeDomainPattern issues
      = (((issues.filter (fun i => i.fixed)).length : ℚ) / (issues.length : ℚ),
          some (generateDomainSpecificCSS (findCommonProblemsInDomain issues))) := by
  simp only [analyzeDomainPattern]
  rw [if_neg h]

/-- Reduction of `domainBranch` on a missing bucket. -/
lemma domainBranch_none (pats : Patterns) (d : String)
    (hW : lookupA pats.websitePatterns d = none) : domainBranch pats d = none := by
  unfold domainBranch
  rw [hW]

/-- Reduction of `domainBranch` on a present bucket. -/
lemma domainBranch_some (pats : Patterns) (d : String) (issues : List Feedback)
    (hW : lookupA pats.websitePatterns d = some issues) :
    domainBranch pats d
      = if 1 / 2 < (analyzeDomainPattern issues).1 then
          some ⟨(analyzeDomainPattern issues).2, (analyzeDomainPattern issues).1,
            "domain_pattern", "Similar issues on " ++ d⟩
        else none := by
  unfold domainBranch
  rw [hW]

/-- A produced domain-bucket prediction certifies its gates: a bucket of
at least 3 same-domain issues with fixed ratio above 0.5. -/
lemma domainBranch_facts (pats : Patterns) (d : String) (pred : Prediction)
    (hp : domainBranch pats d = some pred) :
    ∃ issues, lookupA pats.websitePatterns d = some issues ∧ 3 ≤ issues.length ∧
      (1 : ℚ) / 2 < ((issues.filter (fun i => i.fixed)).length : ℚ) / (issues.length : ℚ) := by
  cases hW : lookupA pats.websitePatterns d with
  | none =>
    rw [domainBranch_none pats d hW] at hp
    exact absurd hp (by simp)
  | some issues =>
    rw [domainBranch_some pats d issues hW] at hp
    by_cases h3 : issues.length < 3
    · rw [analyzeDomainPattern_lt issues h3] at hp
      norm_num at hp
      exact absurd hp (by simp)
    · rw [analyzeDomainPattern_ge issues h3] at hp
      by_cases hr : (1 : ℚ) / 2
          < ((issues.filter (fun i => i.fixed)).length : ℚ) / (issues.length : ℚ)
      · exact ⟨issues, rfl, by omega, hr⟩
      · rw [if_neg (by simpa using hr)] at hp
        exact absurd hp (by simp)

/-- Reduction of `generatePredictiveCSS` when the element key has a
confidence entry. -/
lemma generatePredictiveCSS_some (ed : ElementData) (pc : PageContext) (fb : List Feedback)
    (c : ℚ)
    (hc : lookupA (extractPatterns fb).confidence (elementKey ed.tag ed.classes) = some c) :
    generatePredictiveCSS ed pc fb
      = if 7 / 10 ≤ c then
          some ⟨findMostSuccessfulCSS ((lookupA (extractPatterns fb).successfulFixes
                (elementKey ed.tag ed.classes)).getD (0, [])).2, c, "learned_pattern",
            toString ((lookupA (extractPatterns fb).successfulFixes
                (elementKey ed.tag ed.classes)).getD (0, [])).1 ++ " previous fixes"⟩
        else domainBranch (extractPatterns fb) (extractDomain pc.url) := by
  simp only [generatePredictiveCSS]
  rw [hc]

/-- Reduction of `generatePredictiveCSS` when the element key has no
confidence entry. -/
lemma generatePredictiveCSS_nokey (ed : ElementData) (pc : PageContext) (fb : List Feedback)
    (hc : lookupA (extractPatterns fb).confidence (elementKey ed.tag ed.classes) = none) :
    generatePredictiveCSS ed pc fb
      = domainBranch (extractPatterns fb) (extractDomain pc.url) := by
  simp only [generatePredictiveCSS]
  rw [hc]

/-- C7 (amended): `generatePredictiveCSS` consults the global element-key
bucket first — whenever the element key reaches the 0.7 learning
threshold the result comes from the learned-pattern bucket, regardless of
the domain bucket; and a domain-bucket result is produced only when the
element key misses the threshold and the domain bucket holds at least 3
same-domain issues with a fixed ratio above 0.5. -/
theorem c7_global_bucket_first (ed : ElementData) (pc : PageContext) (fb : List Feedback) :
    (∀ c, lookupA (extractPatterns fb).confidence (elementKey ed.tag ed.classes) = some c →
        7 / 10 ≤ c →
        Option.map Prediction.source (generatePredictiveCSS ed pc fb)
          = some "learned_pattern") ∧
    (∀ pred, generatePredictiveCSS ed pc fb = some pred → pred.source = "domain_pattern" →
        (∀ c, lookupA (extractPatterns fb).confidence (elementKey ed.tag ed.classes)
            = some c → c < 7 / 10) ∧
        ∃ issues, lookupA (extractPatterns fb).websitePatterns (extractDomain pc.url)
            = some issues ∧ 3 ≤ issues.length ∧
          (1 : ℚ) / 2
            < ((issues.filter (fun i => i.fixed)).length : ℚ) / (issues.length : ℚ)) := by
  constructor
  · intro c hc hge
    rw [generatePredictiveCSS_some ed pc fb c hc, if_pos hge]
    rfl
  · intro pred hp hsrc
    cases hL : lookupA (extractPatterns fb).confidence (elementKey ed.tag ed.classes) with
    | none =>
      rw [generatePredictiveCSS_nokey ed pc fb hL] at hp
      refine ⟨fun c hc => Option.noConfusion hc, ?_⟩
      exact domainBranch_facts _ _ _ hp
    | some c₀ =>
      rw [generatePredictiveCSS_some ed pc fb c₀ hL] at hp
      by_cases hge : 7 / 10 ≤ c₀
      · rw [if_pos hge, Option.some.injEq] at hp
        subst hp
        simp at hsrc
      · rw [if_neg hge] at hp
        refine ⟨fun c hc => ?_, domainBranch_facts _ _ _ hp⟩
        rw [Option.some.injEq] at hc
        subst hc
        exact not_le.mp hge

/-- Lookup of the seven-success store reaches the learning threshold. -/
lemma c7Fb_lookup :
    lookupA (extractPatterns c7Fb).confidence (elementKey c7Ed.tag c7Ed.classes)
      = some (7 / 10) := by
  rw [confidence_lookup,
    show succCount c7Fb (elementKey c7Ed.tag c7Ed.classes) = 7 from by decide]
  norm_num

/-- C7 (counterexample): on a store where both the global element-key
bucket (confidence 0.7) and the same-domain bucket (7 fixed issues,
ratio 1 > 0.5) qualify, the produced patch comes from the global learned
bucket, not the domain bucket — so the domain-specific bucket is not
consulted before the global one, contrary to the claim. -/
theorem c7_counterexample :
    Option.map Prediction.source (generatePredictiveCSS c7Ed c7Pc c7Fb)
      = some "learned_pattern" ∧
    lookupA (extractPatterns c7Fb).websitePatterns "a.com" = some c7Fb ∧
    3 ≤ c7Fb.length ∧
    (1 : ℚ) / 2 < ((c7Fb.filter (fun i => i.fixed)).length : ℚ) / (c7Fb.length : ℚ) ∧
    "learned_pattern" ≠ "domain_pattern" := by
  refine ⟨?_, ?_, by decide, ?_, by decide⟩
  · rw [generatePredictiveCSS_some c7Ed c7Pc c7Fb (7 / 10) c7Fb_lookup, if_pos (by norm_num)]
    rfl
  · rw [websitePatterns_lookup, show domFilter c7Fb "a.com" = c7Fb from by decide,
      if_neg (by decide)]
  · rw [show (c7Fb.filter (fun i => i.fixed)).length = 7 from by decide,
      show c7Fb.length = 7 from by decide]
    norm_num

/-- The domain-side input produces exactly the domain-bucket prediction. -/
lemma c7FbD_prediction : generatePredictiveCSS c7EdD c7PcD c7FbD = some c7PredD := by
  have hnone : lookupA (extractPatterns c7FbD).confidence (elementKey c7EdD.tag c7EdD.classes)
      = none := by
    rw [confidence_lookup,
      show succCount c7FbD (elementKey c7EdD.tag c7EdD.classes) = 0 from by decide]
    rfl
  rw [generatePredictiveCSS_nokey c7EdD c7PcD c7FbD hnone]
  have hbucket : lookupA (extractPatterns c7FbD).websitePatterns (extractDomain c7PcD.url)
      = some c7FbD := by
    rw [websitePatterns_lookup, show domFilter c7FbD (extractDomain c7PcD.url) = c7FbD from
      by decide, if_neg (by decide)]
  rw [domainBranch_some _ _ c7FbD hbucket]
  rw [analyzeDomainPattern_ge c7FbD (by rw [show c7FbD.length = 3 from by decide]; norm_num)]
  rw [if_pos (by
    rw [show (c7FbD.filter (fun i => i.fixed)).length = 3 from by decide,
      show c7FbD.length = 3 from by decide]
    norm_num)]
  rw [show extractDomain c7PcD.url = "b.com" from by decide]
  rfl

/-- C7 (witness): the learned path fires at the threshold on the
seven-success store, and the domain path certifies its gates on the
three-issue domain store. -/
theorem c7_witness :
    Option.map Prediction.source (generatePredictiveCSS c7Ed c7Pc c7Fb)
      = some "learned_pattern" ∧
    ((∀ c, lookupA (extractPatterns c7FbD).confidence (elementKey c7EdD.tag c7EdD.classes)
          = some c → c < 7 / 10) ∧
      ∃ issues, lookupA (extractPatterns c7FbD).websitePatterns (extractDomain c7PcD.url)
          = some issues ∧ 3 ≤ issues.length ∧
        (1 : ℚ) / 2
          < ((issues.filter (fun i => i.fixed)).length : ℚ) / (issues.length : ℚ)) := by
  constructor
  · exact (c7_global_bucket_first c7Ed c7Pc c7Fb).1 (7 / 10) c7Fb_lookup (by norm_num)
  · exact (c7_global_bucket_first c7EdD c7PcD c7FbD).2 c7PredD c7FbD_prediction rfl

end DarkMode
